import Mathlib

/-!
Shallow embedding of the realtime synchronization layer of the repository:
* `src/web-ui/src/lib/ws-client.ts` — the `WebSocketClient` connection
  manager with auto-reconnect (exponential backoff, environment-triggered
  immediate reconnect).
* the tool-executions store (`registerToolCall`, `startToolExecution`,
  `updateToolExecution`, `finishToolExecution`,
  `resolveCurrentAssistantMessageId`) as it appears in
  `src/web-ui/src/lib/__tests__/event-handlers.test.ts`.

The embedding is explicit state passing: each operation maps a client/store
state to a new state together with the list of observable effects it emits
(callbacks invoked, sockets opened, timers scheduled).  Wall-clock time is an
explicit `Nat` argument where the source calls `Date.now()`.
-/

/-! ## WebSocketClient (src/web-ui/src/lib/ws-client.ts) -/

/-- `ConnectionState` from ws-client.ts. -/
inductive ConnectionState where
  | disconnected
  | connecting
  | connected
  | error
deriving DecidableEq, Repr

/-- The options record (`WebSocketClientOptions`) restricted to the fields the
reconnect policy reads; `url`, `authToken` and the two callbacks are modelled
as effects instead of data. -/
structure WSOptions where
  reconnect : Bool
  reconnectDelay : Nat
  maxReconnectDelay : Nat
deriving DecidableEq, Repr

/-- Constructor defaults: `reconnect: true, reconnectDelay: 1000,
maxReconnectDelay: 30000`. -/
def defaultWSOptions : WSOptions :=
  { reconnect := true, reconnectDelay := 1000, maxReconnectDelay := 30000 }

/-- The mutable fields of `WebSocketClient`.  `ws` is `true` exactly when
`this.ws !== null`; `reconnectTimer = some d` means a reconnect timer with
delay `d` is pending; `handlersActive` is `true` while the
visibility/online listeners are registered (they are registered by the
constructor and removed by `cleanupVisibilityHandlers`). -/
structure WebSocketClient where
  ws : Bool
  options : WSOptions
  state : ConnectionState
  reconnectAttempt : Nat
  reconnectTimer : Option Nat
  shouldReconnect : Bool
  handlersActive : Bool
deriving DecidableEq, Repr

/-- Fresh client as built by the constructor. -/
def newWebSocketClient (options : WSOptions) : WebSocketClient :=
  { ws := false, options := options, state := .disconnected,
    reconnectAttempt := 0, reconnectTimer := none,
    shouldReconnect := true, handlersActive := true }

/-- Observable effects of the client: a call of the consumer's
`onStateChange` callback, a call of `onMessage`, creation of a WebSocket
(`new WebSocket(...)`), scheduling of a reconnect timer with its delay, and
transmission of an outbound frame. -/
inductive Effect where
  | stateChange (s : ConnectionState) (error : Option String)
  | deliverMessage (data : String)
  | openSocket
  | scheduleTimer (delay : Nat)
  | sendFrame (data : String)
deriving DecidableEq, Repr

/-- An inbound text frame: either valid JSON (carrying its decoded payload,
treated opaquely) or a payload on which `JSON.parse` throws. -/
inductive Frame where
  | valid (data : String)
  | invalid
deriving DecidableEq, Repr

/-- `setState`: no-op (no notification) when the state is unchanged,
otherwise stores the state and invokes `onStateChange(state, error)`. -/
def setState (c : WebSocketClient) (s : ConnectionState) (error : Option String) :
    WebSocketClient × List Effect :=
  if c.state = s then (c, [])
  else ({ c with state := s }, [.stateChange s error])

/-- `connect()`: returns immediately when already connected/connecting;
otherwise re-enables reconnection, transitions to `connecting` and opens a
new socket.  (The `catch` branch of the source only fires when `new URL`
rejects the configured endpoint; the embedding models the successful path.) -/
def connect (c : WebSocketClient) : WebSocketClient × List Effect :=
  if c.state = .connected ∨ c.state = .connecting then (c, [])
  else
    let c := { c with shouldReconnect := true }
    let (c, effs) := setState c .connecting none
    ({ c with ws := true }, effs ++ [.openSocket])

/-- The `onopen` handler: reset the attempt counter, become connected. -/
def onOpen (c : WebSocketClient) : WebSocketClient × List Effect :=
  setState { c with reconnectAttempt := 0 } .connected none

/-- The `onmessage` handler: `JSON.parse` the frame; on success hand the
payload to `options.onMessage`; on failure log and drop the frame (the
exception is caught, so nothing escapes and no state changes). -/
def onMessage (c : WebSocketClient) (f : Frame) : WebSocketClient × List Effect :=
  match f with
  | .valid data => (c, [.deliverMessage data])
  | .invalid => (c, [])

/-- The `onerror` handler: log and transition to the error state. -/
def onError (c : WebSocketClient) : WebSocketClient × List Effect :=
  setState c .error (some "Connection error")

/-- `scheduleReconnect()`: do nothing if a timer is already pending;
otherwise compute `min(reconnectDelay * 2 ** reconnectAttempt,
maxReconnectDelay)`, increment the attempt counter, and schedule the timer. -/
def scheduleReconnect (c : WebSocketClient) : WebSocketClient × List Effect :=
  if c.reconnectTimer.isSome then (c, [])
  else
    let delay := min (c.options.reconnectDelay * 2 ^ c.reconnectAttempt)
      c.options.maxReconnectDelay
    ({ c with reconnectTimer := some delay,
              reconnectAttempt := c.reconnectAttempt + 1 },
     [.scheduleTimer delay])

/-- The `onclose` handler: drop the socket; schedule a reconnect when both
`shouldReconnect` and `options.reconnect` hold, otherwise become
disconnected. -/
def onClose (c : WebSocketClient) : WebSocketClient × List Effect :=
  let c := { c with ws := false }
  if c.shouldReconnect = true ∧ c.options.reconnect = true then
    scheduleReconnect c
  else
    setState c .disconnected none

/-- The reconnect timer firing: clear the timer slot and call `connect()`.
A cleared (`none`) timer never fires. -/
def timerFire (c : WebSocketClient) : WebSocketClient × List Effect :=
  match c.reconnectTimer with
  | none => (c, [])
  | some _ => connect { c with reconnectTimer := none }

/-- `disconnect()`: disable reconnection, cancel any pending timer, close and
drop the socket, remove the visibility/online listeners, and become
disconnected. -/
def disconnect (c : WebSocketClient) : WebSocketClient × List Effect :=
  let c := { c with shouldReconnect := false, reconnectTimer := none,
                    ws := false, handlersActive := false }
  setState c .disconnected none

/-- `send(data)`: throws `"WebSocket is not connected"` unless the state is
`connected` and a socket exists; otherwise serializes and transmits. -/
def send (c : WebSocketClient) (data : String) :
    Except String (WebSocketClient × List Effect) :=
  if c.state ≠ .connected ∨ c.ws = false then
    .error "WebSocket is not connected"
  else
    .ok (c, [.sendFrame data])

/-- `getState()`. -/
def getState (c : WebSocketClient) : ConnectionState := c.state

/-- The `visibilitychange` listener (invoked only while registered): when the
tab became visible, reconnection is enabled and the state is neither
connected nor connecting, cancel any pending timer, reset the backoff
counter and connect immediately. -/
def visibilityChange (c : WebSocketClient) (visible : Bool) :
    WebSocketClient × List Effect :=
  if c.handlersActive = false then (c, [])
  else if visible = true ∧ c.shouldReconnect = true ∧
      c.state ≠ .connected ∧ c.state ≠ .connecting then
    connect { c with reconnectTimer := none, reconnectAttempt := 0 }
  else (c, [])

/-- The `online` listener (invoked only while registered): same policy as the
visibility listener, without the visibility test. -/
def networkOnline (c : WebSocketClient) : WebSocketClient × List Effect :=
  if c.handlersActive = false then (c, [])
  else if c.shouldReconnect = true ∧
      c.state ≠ .connected ∧ c.state ≠ .connecting then
    connect { c with reconnectTimer := none, reconnectAttempt := 0 }
  else (c, [])

/-- The externally triggered entry points of the client: consumer calls,
socket callbacks, timer expiry and the two environment listeners. -/
inductive Ev where
  | callConnect
  | callDisconnect
  | sockOpen
  | sockMessage (f : Frame)
  | sockError
  | sockClose
  | timerFired
  | visibility (visible : Bool)
  | online
deriving DecidableEq, Repr

/-- Dispatch one entry point. -/
def step (c : WebSocketClient) (e : Ev) : WebSocketClient × List Effect :=
  match e with
  | .callConnect => connect c
  | .callDisconnect => disconnect c
  | .sockOpen => onOpen c
  | .sockMessage f => onMessage c f
  | .sockError => onError c
  | .sockClose => onClose c
  | .timerFired => timerFire c
  | .visibility visible => visibilityChange c visible
  | .online => networkOnline c

/-- Run a sequence of entry points, concatenating the emitted effects. -/
def run (c : WebSocketClient) : List Ev → WebSocketClient × List Effect
  | [] => (c, [])
  | e :: es =>
    let r := step c e
    let r' := run r.1 es
    (r'.1, r.2 ++ r'.2)

/-- The delays of the reconnect timers scheduled in an effect trace. -/
def delaysOf (effs : List Effect) : List Nat :=
  effs.filterMap fun e =>
    match e with
    | .scheduleTimer d => some d
    | _ => none

/-- A client immediately after a successful open: connected, attempt counter
reset, no pending timer, reconnection enabled. -/
def afterOpen (options : WSOptions) : WebSocketClient :=
  { ws := true, options := options, state := .connected,
    reconnectAttempt := 0, reconnectTimer := none,
    shouldReconnect := true, handlersActive := true }

/-- The client in the middle of the `n`-th reconnection attempt of an
uninterrupted failure streak. -/
def midAttempt (options : WSOptions) (n : Nat) : WebSocketClient :=
  { ws := true, options := options, state := .connecting,
    reconnectAttempt := n, reconnectTimer := none,
    shouldReconnect := true, handlersActive := true }

/-- `n` consecutive unexpected closes with no intervening successful open:
each cycle is a transport error, the close, and the expiry of the scheduled
reconnect timer (which starts the next, again failing, attempt). -/
def failSeq : Nat → List Ev
  | 0 => []
  | n + 1 => failSeq n ++ [.sockError, .sockClose, .timerFired]

/-! ## Tool-executions store
(`registerToolCall` / `startToolExecution` / `updateToolExecution` /
`finishToolExecution` and `resolveCurrentAssistantMessageId`, from the
store source included in `src/web-ui/src/lib/__tests__/event-handlers.test.ts`).

Payloads (`args`, `ToolExecutionResult`) are handled opaquely by the store —
they are stored and compared, never inspected — so the embedding represents
each as a `String`. -/

/-- Message roles relevant to owning-message resolution. -/
inductive Role where
  | user
  | assistant
deriving DecidableEq, Repr

/-- The slice of a message record read by the tool store. -/
structure Message where
  id : String
  role : Role
deriving DecidableEq, Repr

/-- The slice of `messagesStore.state` read by
`resolveCurrentAssistantMessageId`. -/
structure MessagesState where
  currentMessageId : Option String
  messages : List Message
deriving DecidableEq, Repr

/-- The `status` field of a `ToolExecution`. -/
inductive ToolStatus where
  | called
  | running
  | completed
  | error
deriving DecidableEq, Repr

/-- `ToolExecution` record. -/
structure ToolExecution where
  toolCallId : String
  toolName : String
  args : String
  status : ToolStatus
  partialResult : Option String
  result : Option String
  isError : Option Bool
  startTime : Nat
  endTime : Option Nat
  messageId : Option String
deriving DecidableEq, Repr

/-- `ToolExecutionsStore`: the keyed `executions` record and the
first-registered order. -/
structure ToolExecutionsStore where
  executions : String → Option ToolExecution
  executionOrder : List String

/-- `INITIAL_STATE`. -/
def initialToolStore : ToolExecutionsStore :=
  { executions := fun _ => none, executionOrder := [] }

/-- `resolveCurrentAssistantMessageId()`: the currently-streaming message id
if one exists, else the id of the last assistant message, else `null`. -/
def resolveCurrentAssistantMessageId (ms : MessagesState) : Option String :=
  match ms.currentMessageId with
  | some mid => some mid
  | none =>
    ((ms.messages.reverse).find? fun m => m.role == .assistant).map (·.id)

/-- Object-spread update of the `executions` record
(`{...state.executions, [id]: v}`). -/
def setExec (f : String → Option ToolExecution) (id : String)
    (v : ToolExecution) : String → Option ToolExecution :=
  fun k => if k = id then some v else f k

/-- `executionOrder` update shared by register/start: append the id unless
already present. -/
def pushOrder (order : List String) (id : String) : List String :=
  if order.contains id then order else order ++ [id]

/-- `registerToolCall({toolCallId, toolName, args})` at wall-clock `now` with
the messages store in state `ms`. -/
def registerToolCall (ms : MessagesState) (now : Nat)
    (toolCallId toolName args : String) (st : ToolExecutionsStore) :
    ToolExecutionsStore :=
  let messageId := resolveCurrentAssistantMessageId ms
  match st.executions toolCallId with
  | some existing =>
    { executions := setExec st.executions toolCallId
        { existing with
          toolName := toolName, args := args,
          messageId :=
            match existing.messageId with
            | some m => some m
            | none => messageId },
      executionOrder := pushOrder st.executionOrder toolCallId }
  | none =>
    { executions := setExec st.executions toolCallId
        { toolCallId := toolCallId, toolName := toolName, args := args,
          status := .called, partialResult := none, result := none,
          isError := none, startTime := now, endTime := none,
          messageId := messageId },
      executionOrder := pushOrder st.executionOrder toolCallId }

/-- `startToolExecution({toolCallId, toolName, args})` at wall-clock `now`:
unconditionally rebuilds the record with status `running`, keeping the
existing start time, message binding and result fields when present. -/
def startToolExecution (ms : MessagesState) (now : Nat)
    (toolCallId toolName args : String) (st : ToolExecutionsStore) :
    ToolExecutionsStore :=
  let messageId := resolveCurrentAssistantMessageId ms
  let existing := st.executions toolCallId
  { executions := setExec st.executions toolCallId
      { toolCallId := toolCallId, toolName := toolName, args := args,
        status := .running,
        startTime := match existing with
          | some e => e.startTime
          | none => now,
        messageId := match existing with
          | some e =>
            (match e.messageId with
             | some m => some m
             | none => messageId)
          | none => messageId,
        partialResult := existing.bind (·.partialResult),
        result := existing.bind (·.result),
        isError := existing.bind (·.isError),
        endTime := existing.bind (·.endTime) },
    executionOrder := pushOrder st.executionOrder toolCallId }

/-- `updateToolExecution(toolCallId, partialResult)`: no-op on an unknown id;
otherwise overwrite the partial result. -/
def updateToolExecution (toolCallId : String) (partialResult : String)
    (st : ToolExecutionsStore) : ToolExecutionsStore :=
  match st.executions toolCallId with
  | none => st
  | some execution =>
    { executions := setExec st.executions toolCallId
        { execution with partialResult := some partialResult },
      executionOrder := st.executionOrder }

/-- `finishToolExecution({toolCallId, result, isError})` at wall-clock `now`:
no-op on an unknown id; otherwise set the terminal status, final result and
end time. -/
def finishToolExecution (now : Nat) (toolCallId : String) (result : String)
    (isError : Bool) (st : ToolExecutionsStore) : ToolExecutionsStore :=
  match st.executions toolCallId with
  | none => st
  | some execution =>
    { executions := setExec st.executions toolCallId
        { execution with
          status := if isError then .error else .completed,
          result := some result, isError := some isError,
          endTime := some now },
      executionOrder := st.executionOrder }

/-- One operation of the tool-executions store, with the ambient messages
state and wall-clock time that the source reads globally. -/
inductive ToolOp where
  | register (ms : MessagesState) (now : Nat) (toolCallId toolName args : String)
  | start (ms : MessagesState) (now : Nat) (toolCallId toolName args : String)
  | update (toolCallId : String) (partialResult : String)
  | finish (now : Nat) (toolCallId : String) (result : String) (isError : Bool)

/-- Apply one operation. -/
def applyToolOp (st : ToolExecutionsStore) : ToolOp → ToolExecutionsStore
  | .register ms now id name args => registerToolCall ms now id name args st
  | .start ms now id name args => startToolExecution ms now id name args st
  | .update id p => updateToolExecution id p st
  | .finish now id r b => finishToolExecution now id r b st

/-- Apply a sequence of operations. -/
def applyToolOps (st : ToolExecutionsStore) (ops : List ToolOp) :
    ToolExecutionsStore :=
  ops.foldl applyToolOp st

/-- A messages store with no messages and nothing streaming. -/
def ms0 : MessagesState := { currentMessageId := none, messages := [] }

/-- A messages store holding one finished assistant message `m1`. -/
def msA : MessagesState :=
  { currentMessageId := none, messages := [{ id := "m1", role := .assistant }] }

/-! ## Theorems -/

/-- C8: an inbound frame whose payload is not valid JSON is dropped: the
`onmessage` handler is total (the `JSON.parse` exception is caught), the
consumer's `onMessage` callback is not invoked, no state-change notification
is issued, and the client state is entirely unchanged. -/
theorem invalid_frame_dropped (c : WebSocketClient) :
    step c (.sockMessage .invalid) = (c, []) := rfl

/-- C10: `send` invoked while the connection state is not `connected` throws
the "not connected" error; the `Except.error` result carries no effects, so
no data is transmitted. -/
theorem send_fails_when_not_connected (c : WebSocketClient) (data : String)
    (h : getState c ≠ .connected) :
    send c data = Except.error "WebSocket is not connected" := by
  have h' : c.state ≠ ConnectionState.connected := h
  simp [send, h']

/-- Witness for C10 at a freshly constructed (disconnected) client. -/
theorem send_fails_when_not_connected_w :
    send (newWebSocketClient defaultWSOptions) "ping"
      = Except.error "WebSocket is not connected" :=
  send_fails_when_not_connected (newWebSocketClient defaultWSOptions) "ping"
    (by decide)

/-- C9: for a call id not present in the store, `updateToolExecution` and
`finishToolExecution` are no-ops: they leave the whole store (executions map
and executionOrder) unchanged, and being total functions they throw
nothing. -/
theorem unknown_call_id_noop (st : ToolExecutionsStore)
    (toolCallId partialResult result : String) (now : Nat) (isError : Bool)
    (h : st.executions toolCallId = none) :
    updateToolExecution toolCallId partialResult st = st ∧
    finishToolExecution now toolCallId result isError st = st := by
  constructor
  · simp [updateToolExecution, h]
  · simp [finishToolExecution, h]

/-- Witness for C9 on the empty store. -/
theorem unknown_call_id_noop_w :
    updateToolExecution "call-1" "p" initialToolStore = initialToolStore ∧
    finishToolExecution 7 "call-1" "r" true initialToolStore = initialToolStore :=
  unknown_call_id_noop initialToolStore "call-1" "p" "r" 7 true rfl

/-- Looking up the key just written. -/
lemma setExec_self (f : String → Option ToolExecution) (id : String)
    (v : ToolExecution) : setExec f id v id = some v := by
  simp [setExec]

/-- Folding `updateToolExecution` over a list of partial results keeps every
field of the record except `partialResult`. -/
lemma foldl_update_lookup (id : String) (ps : List String) :
    ∀ (st : ToolExecutionsStore) (e : ToolExecution),
      st.executions id = some e →
      ∃ q, ((ps.foldl (fun s p => updateToolExecution id p s) st).executions id)
          = some { e with partialResult := q } := by
  induction ps with
  | nil =>
    intro st e h
    exact ⟨e.partialResult, h⟩
  | cons p ps ih =>
    intro st e h
    have h1 : (updateToolExecution id p st).executions id
        = some { e with partialResult := some p } := by
      simp [updateToolExecution, h, setExec_self]
    obtain ⟨q, hq⟩ := ih _ _ h1
    exact ⟨q, hq⟩

/-- C5: for a fresh call id, the sequence `register` → `start` →
`updatePartial`* → `finish` leaves a record whose status matches the
`isError` flag passed to `finish` (`completed` when false, `error` when
true), whose result is the one passed to `finish`, and whose start time (set
at registration) is ≤ its end time (set at finish) under a monotone clock. -/
theorem register_start_finish_lifecycle (st0 : ToolExecutionsStore)
    (ms1 ms2 : MessagesState) (id name1 args1 name2 args2 result : String)
    (t1 t2 t4 : Nat) (ps : List String) (isError : Bool)
    (habs : st0.executions id = none) (h12 : t1 ≤ t2) (h24 : t2 ≤ t4) :
    ∃ e, (finishToolExecution t4 id result isError
        (ps.foldl (fun s p => updateToolExecution id p s)
          (startToolExecution ms2 t2 id name2 args2
            (registerToolCall ms1 t1 id name1 args1 st0)))).executions id
      = some e ∧
    e.status = (if isError then ToolStatus.error else ToolStatus.completed) ∧
    e.result = some result ∧ e.startTime = t1 ∧ e.endTime = some t4 ∧
    e.startTime ≤ t4 := by
  have h1 : (registerToolCall ms1 t1 id name1 args1 st0).executions id
      = some { toolCallId := id, toolName := name1, args := args1,
               status := .called, partialResult := none, result := none,
               isError := none, startTime := t1, endTime := none,
               messageId := resolveCurrentAssistantMessageId ms1 } := by
    simp [registerToolCall, habs, setExec_self]
  have h2 : (startToolExecution ms2 t2 id name2 args2
      (registerToolCall ms1 t1 id name1 args1 st0)).executions id
      = some { toolCallId := id, toolName := name2, args := args2,
               status := .running, partialResult := none, result := none,
               isError := none, startTime := t1, endTime := none,
               messageId := match resolveCurrentAssistantMessageId ms1 with
                 | some m => some m
                 | none => resolveCurrentAssistantMessageId ms2 } := by
    simp [startToolExecution, h1, setExec_self]
  obtain ⟨q, h3⟩ := foldl_update_lookup id ps _ _ h2
  refine ⟨{ toolCallId := id, toolName := name2, args := args2,
            status := if isError then ToolStatus.error else ToolStatus.completed,
            partialResult := q, result := some result, isError := some isError,
            startTime := t1, endTime := some t4,
            messageId := match resolveCurrentAssistantMessageId ms1 with
              | some m => some m
              | none => resolveCurrentAssistantMessageId ms2 }, ?_, rfl, rfl, rfl,
    rfl, le_trans h12 h24⟩
  simp [finishToolExecution, h3, setExec_self]

/-- C2: an unexpected close while the state is `connected` (no preceding
error event) with reconnection enabled emits no state-change notification
and leaves `getState` at `connected`; a reconnect timer is scheduled, but
when it fires the `connect()` call returns immediately (the state is still
`connected`) without opening a socket, and from the resulting state
`connect()`, the visibility trigger and the online trigger are all no-ops,
so the client never re-establishes the connection. -/
theorem close_from_connected_never_reconnects (c : WebSocketClient)
    (hstate : getState c = .connected) (hsr : c.shouldReconnect = true)
    (hrec : c.options.reconnect = true) (htimer : c.reconnectTimer = none) :
    (∀ s err, Effect.stateChange s err ∉ (step c .sockClose).2) ∧
    getState (step c .sockClose).1 = .connected ∧
    (∃ d, (step c .sockClose).1.reconnectTimer = some d) ∧
    (step (step c .sockClose).1 .timerFired).2 = [] ∧
    getState (step (step c .sockClose).1 .timerFired).1 = .connected ∧
    step (step (step c .sockClose).1 .timerFired).1 .callConnect
      = ((step (step c .sockClose).1 .timerFired).1, []) ∧
    step (step (step c .sockClose).1 .timerFired).1 (.visibility true)
      = ((step (step c .sockClose).1 .timerFired).1, []) ∧
    step (step (step c .sockClose).1 .timerFired).1 .online
      = ((step (step c .sockClose).1 .timerFired).1, []) := by
  have hstate' : c.state = ConnectionState.connected := hstate
  have hclose : step c .sockClose
      = ({ c with
            ws := false,
            reconnectTimer := some (min
              (c.options.reconnectDelay * 2 ^ c.reconnectAttempt)
              c.options.maxReconnectDelay),
            reconnectAttempt := c.reconnectAttempt + 1 },
         [.scheduleTimer (min (c.options.reconnectDelay * 2 ^ c.reconnectAttempt)
            c.options.maxReconnectDelay)]) := by
    simp [step, onClose, hsr, hrec, scheduleReconnect, htimer]
  rw [hclose]
  have hfire : step ({ c with
        ws := false,
        reconnectTimer := some (min
          (c.options.reconnectDelay * 2 ^ c.reconnectAttempt)
          c.options.maxReconnectDelay),
        reconnectAttempt := c.reconnectAttempt + 1 } : WebSocketClient)
        .timerFired
      = ({ c with
            ws := false, reconnectTimer := none,
            reconnectAttempt := c.reconnectAttempt + 1 }, []) := by
    simp [step, timerFire, connect, hstate']
  rw [hfire]
  refine ⟨by simp, hstate, ⟨_, rfl⟩, rfl, hstate, ?_, ?_, ?_⟩
  · simp [step, connect, hstate']
  · simp [step, visibilityChange, hstate']
  · simp [step, networkOnline, hstate']

/-- Witness for C2 at a concrete connected client. -/
theorem close_from_connected_never_reconnects_w :
    (∀ s err, Effect.stateChange s err ∉ (step (afterOpen defaultWSOptions) .sockClose).2) ∧
    getState (step (afterOpen defaultWSOptions) .sockClose).1 = .connected ∧
    (∃ d, (step (afterOpen defaultWSOptions) .sockClose).1.reconnectTimer = some d) ∧
    (step (step (afterOpen defaultWSOptions) .sockClose).1 .timerFired).2 = [] ∧
    getState (step (step (afterOpen defaultWSOptions) .sockClose).1 .timerFired).1
      = .connected ∧
    step (step (step (afterOpen defaultWSOptions) .sockClose).1 .timerFired).1
        .callConnect
      = ((step (step (afterOpen defaultWSOptions) .sockClose).1 .timerFired).1, []) ∧
    step (step (step (afterOpen defaultWSOptions) .sockClose).1 .timerFired).1
        (.visibility true)
      = ((step (step (afterOpen defaultWSOptions) .sockClose).1 .timerFired).1, []) ∧
    step (step (step (afterOpen defaultWSOptions) .sockClose).1 .timerFired).1
        .online
      = ((step (step (afterOpen defaultWSOptions) .sockClose).1 .timerFired).1, []) :=
  close_from_connected_never_reconnects (afterOpen defaultWSOptions) rfl rfl rfl rfl

/-- C7: while the listeners are registered, reconnection is enabled and the
state is neither `connected` nor `connecting`, the visibility trigger (tab
became visible) and the online trigger each cancel any pending reconnect
timer, reset the attempt counter to zero and immediately connect — the
result transitions to `connecting` with exactly one socket opened and no
timer left pending. -/
theorem env_trigger_immediate_reconnect (c : WebSocketClient)
    (hh : c.handlersActive = true) (hsr : c.shouldReconnect = true)
    (h1 : c.state ≠ .connected) (h2 : c.state ≠ .connecting) :
    step c (.visibility true)
      = ({ c with
            reconnectTimer := none, reconnectAttempt := 0,
            shouldReconnect := true, state := .connecting, ws := true },
         [.stateChange .connecting none, .openSocket]) ∧
    step c .online
      = ({ c with
            reconnectTimer := none, reconnectAttempt := 0,
            shouldReconnect := true, state := .connecting, ws := true },
         [.stateChange .connecting none, .openSocket]) := by
  constructor
  · simp [step, visibilityChange, hh, hsr, h1, h2, connect, setState]
  · simp [step, networkOnline, hh, hsr, h1, h2, connect, setState]

/-- Witness for C7 at a concrete disconnected client. -/
theorem env_trigger_immediate_reconnect_w :
    step (newWebSocketClient defaultWSOptions) (.visibility true)
      = ({ newWebSocketClient defaultWSOptions with
            reconnectTimer := none, reconnectAttempt := 0,
            shouldReconnect := true, state := .connecting, ws := true },
         [.stateChange .connecting none, .openSocket]) ∧
    step (newWebSocketClient defaultWSOptions) .online
      = ({ newWebSocketClient defaultWSOptions with
            reconnectTimer := none, reconnectAttempt := 0,
            shouldReconnect := true, state := .connecting, ws := true },
         [.stateChange .connecting none, .openSocket]) :=
  env_trigger_immediate_reconnect (newWebSocketClient defaultWSOptions)
    rfl rfl (by decide) (by decide)

/-- After `disconnect()` the client is quiescent: each entry point other
than an explicit `connect()` keeps reconnection disabled, keeps the timer
slot empty and opens no socket. -/
lemma quiescent_step (c : WebSocketClient) (e : Ev)
    (hsr : c.shouldReconnect = false) (ht : c.reconnectTimer = none)
    (he : e ≠ Ev.callConnect) :
    (step c e).1.shouldReconnect = false ∧
    (step c e).1.reconnectTimer = none ∧
    Effect.openSocket ∉ (step c e).2 := by
  cases e with
  | callConnect => exact absurd rfl he
  | callDisconnect =>
    simp only [step, disconnect, setState]
    split <;> simp
  | sockOpen =>
    simp only [step, onOpen, setState]
    split <;> simp [hsr, ht]
  | sockMessage f =>
    cases f <;> simp [step, onMessage, hsr, ht]
  | sockError =>
    simp only [step, onError, setState]
    split <;> simp [hsr, ht]
  | sockClose =>
    simp only [step, onClose, hsr]
    rw [if_neg (by simp [hsr])]
    simp only [setState]
    split <;> simp [hsr, ht]
  | timerFired =>
    simp [step, timerFire, ht, hsr]
  | visibility visible =>
    simp only [step, visibilityChange]
    split
    · simp [hsr, ht]
    · rw [if_neg (by simp [hsr])]
      simp [hsr, ht]
  | online =>
    simp only [step, networkOnline]
    split
    · simp [hsr, ht]
    · rw [if_neg (by simp [hsr])]
      simp [hsr, ht]

/-- Quiescence is preserved along any run that contains no explicit
`connect()` call, and such a run opens no socket. -/
lemma quiescent_run (evs : List Ev) :
    ∀ c : WebSocketClient, (∀ e ∈ evs, e ≠ Ev.callConnect) →
      c.shouldReconnect = false → c.reconnectTimer = none →
      (run c evs).1.shouldReconnect = false ∧
      (run c evs).1.reconnectTimer = none ∧
      Effect.openSocket ∉ (run c evs).2 := by
  induction evs with
  | nil => intro c _ h1 h2; exact ⟨h1, h2, by simp [run]⟩
  | cons e es ih =>
    intro c hevs h1 h2
    have he : e ≠ Ev.callConnect := hevs e (by simp)
    have hs := quiescent_step c e h1 h2 he
    have ihr := ih (step c e).1 (fun e' he' => hevs e' (by simp [he'])) hs.1 hs.2.1
    refine ⟨ihr.1, ihr.2.1, ?_⟩
    simp only [run, List.mem_append]
    rintro (h | h)
    · exact hs.2.2 h
    · exact ihr.2.2 h

/-- C6: `disconnect()` cancels any pending reconnect timer, disables
reconnection and removes the environment listeners; from then on (until an
explicit `connect()`), no sequence of close events, timer firings,
visibility signals or online signals opens a socket or re-arms a timer. -/
theorem disconnect_suppresses_reconnection (c0 : WebSocketClient)
    (evs : List Ev) (hevs : ∀ e ∈ evs, e ≠ Ev.callConnect) :
    ((step c0 .callDisconnect).1.shouldReconnect = false ∧
     (step c0 .callDisconnect).1.reconnectTimer = none ∧
     (step c0 .callDisconnect).1.handlersActive = false) ∧
    ∀ c : WebSocketClient, c.shouldReconnect = false → c.reconnectTimer = none →
      (run c evs).1.shouldReconnect = false ∧
      (run c evs).1.reconnectTimer = none ∧
      Effect.openSocket ∉ (run c evs).2 := by
  constructor
  · simp only [step, disconnect, setState]
    split <;> simp
  · intro c h1 h2
    exact quiescent_run evs c hevs h1 h2

/-- Witness for C6: a disconnect followed by a close, a stray timer firing
and both environment signals attempts no connection. -/
theorem disconnect_suppresses_reconnection_w :
    ((step (afterOpen defaultWSOptions) .callDisconnect).1.shouldReconnect = false ∧
     (step (afterOpen defaultWSOptions) .callDisconnect).1.reconnectTimer = none ∧
     (step (afterOpen defaultWSOptions) .callDisconnect).1.handlersActive = false) ∧
    ∀ c : WebSocketClient, c.shouldReconnect = false → c.reconnectTimer = none →
      (run c [.sockClose, .timerFired, .visibility true, .online]).1.shouldReconnect
        = false ∧
      (run c [.sockClose, .timerFired, .visibility true, .online]).1.reconnectTimer
        = none ∧
      Effect.openSocket ∉ (run c [.sockClose, .timerFired, .visibility true, .online]).2 :=
  disconnect_suppresses_reconnection (afterOpen defaultWSOptions)
    [.sockClose, .timerFired, .visibility true, .online] (by decide)

/-- Witness for C5: a concrete register/start/update/finish run. -/
theorem register_start_finish_lifecycle_w :
    ∃ e, (finishToolExecution 9 "call-2" "done" false
        ([ "p1", "p2" ].foldl (fun s p => updateToolExecution "call-2" p s)
          (startToolExecution ms0 3 "call-2" "tool" "{}"
            (registerToolCall ms0 1 "call-2" "tool" "{}" initialToolStore)))).executions
        "call-2" = some e ∧
    e.status = (if false then ToolStatus.error else ToolStatus.completed) ∧
    e.result = some "done" ∧ e.startTime = 1 ∧ e.endTime = some 9 ∧
    e.startTime ≤ 9 :=
  register_start_finish_lifecycle initialToolStore ms0 ms0 "call-2" "tool" "{}"
    "tool" "{}" "done" 1 3 9 ["p1", "p2"] false rfl (by decide) (by decide)

/-- `run` distributes over concatenation of event lists. -/
lemma run_append (c : WebSocketClient) (es1 es2 : List Ev) :
    run c (es1 ++ es2)
      = ((run (run c es1).1 es2).1, (run c es1).2 ++ (run (run c es1).1 es2).2) := by
  induction es1 generalizing c with
  | nil => simp [run]
  | cons e es ih => simp [run, ih, List.append_assoc]

/-- `delaysOf` distributes over concatenation of effect traces. -/
lemma delaysOf_append (a b : List Effect) :
    delaysOf (a ++ b) = delaysOf a ++ delaysOf b := by
  simp [delaysOf, List.filterMap_append]

/-- One unexpected-close cycle out of the post-open state: the transport
errors, closes (scheduling the first backoff timer) and the timer fires,
starting attempt 1. -/
lemma run_cycle_connected (base maxd : Nat) :
    run (afterOpen ⟨true, base, maxd⟩) [.sockError, .sockClose, .timerFired]
      = (midAttempt ⟨true, base, maxd⟩ 1,
         [.stateChange .error (some "Connection error"),
          .scheduleTimer (min (base * 2 ^ 0) maxd),
          .stateChange .connecting none, .openSocket]) := rfl

/-- One unexpected-close cycle out of the `n`-th reconnection attempt:
the failing attempt errors, closes (scheduling the `n+1`-st backoff timer
from attempt counter `n`) and the timer fires. -/
lemma run_cycle_connecting (base maxd n : Nat) :
    run (midAttempt ⟨true, base, maxd⟩ n) [.sockError, .sockClose, .timerFired]
      = (midAttempt ⟨true, base, maxd⟩ (n + 1),
         [.stateChange .error (some "Connection error"),
          .scheduleTimer (min (base * 2 ^ n) maxd),
          .stateChange .connecting none, .openSocket]) := rfl

/-- After `n` consecutive unexpected-close cycles from a successful open,
the attempt counter is `n` and the scheduled delays were
`min(base * 2^k, max)` for `k = 0, …, n-1`. -/
lemma run_failSeq (base maxd n : Nat) :
    (run (afterOpen ⟨true, base, maxd⟩) (failSeq n)).1
      = (if n = 0 then afterOpen ⟨true, base, maxd⟩
         else midAttempt ⟨true, base, maxd⟩ n) ∧
    delaysOf (run (afterOpen ⟨true, base, maxd⟩) (failSeq n)).2
      = (List.range n).map fun k => min (base * 2 ^ k) maxd := by
  induction n with
  | zero => exact ⟨rfl, rfl⟩
  | succ m ih =>
    obtain ⟨ihs, ihd⟩ := ih
    have hsplit : failSeq (m + 1)
        = failSeq m ++ [.sockError, .sockClose, .timerFired] := rfl
    rw [hsplit, run_append, ihs]
    by_cases hm : m = 0
    · subst hm
      rw [if_pos rfl, run_cycle_connected]
      refine ⟨by simp, ?_⟩
      rw [delaysOf_append, ihd]
      simp [delaysOf, List.range_succ]
    · rw [if_neg hm, run_cycle_connecting]
      refine ⟨by simp, ?_⟩
      rw [delaysOf_append, ihd]
      simp [delaysOf, List.range_succ]

/-- C1 (amended): during an uninterrupted streak of unexpected closes after
a successful open, the delay scheduled upon the `k+1`-st close is
`min(base * 2^k, max)` — i.e. the `n`-th close schedules
`min(base * 2^(n-1), max)`, not `min(base * 2^n, max)` — and a successful
open resets the attempt counter to zero. -/
theorem backoff_delay_on_nth_close (base maxd n k : Nat) (hk : k < n) :
    (delaysOf (run (afterOpen ⟨true, base, maxd⟩) (failSeq n)).2)[k]?
      = some (min (base * 2 ^ k) maxd) ∧
    ∀ c : WebSocketClient, (step c .sockOpen).1.reconnectAttempt = 0 := by
  constructor
  · rw [(run_failSeq base maxd n).2]
    simp [List.getElem?_range, hk]
  · intro c
    simp only [step, onOpen, setState]
    split <;> rfl

/-- Witness for C1 (amended): third close of a streak with the default
options schedules `min(1000 * 2^2, 30000) = 4000`. -/
theorem backoff_delay_on_nth_close_w :
    (delaysOf (run (afterOpen ⟨true, 1000, 30000⟩) (failSeq 3)).2)[2]?
      = some (min (1000 * 2 ^ 2) 30000) ∧
    ∀ c : WebSocketClient, (step c .sockOpen).1.reconnectAttempt = 0 :=
  backoff_delay_on_nth_close 1000 30000 3 2 (by decide)

/-- Counterexample to C1 as stated: with the default configuration
(base 1000, max 30000), the very first unexpected close schedules a
1000 ms delay, whereas the claimed formula `min(base * 2^n, max)` gives
2000 ms for `n = 1`. -/
theorem backoff_delay_counterexample :
    delaysOf (run (afterOpen ⟨true, 1000, 30000⟩) (failSeq 1)).2 = [1000] ∧
    min (1000 * 2 ^ 1) 30000 = 2000 ∧ (1000 : Nat) ≠ 2000 :=
  ⟨rfl, rfl, by decide⟩

/-- Lookup characterization of `setExec`. -/
lemma setExec_lookup (f : String → Option ToolExecution) (key id : String)
    (v : ToolExecution) : setExec f key v id = if id = key then some v else f id := rfl

/-- Lookup characterization of `registerToolCall`. -/
lemma register_lookup (ms : MessagesState) (now : Nat) (cid name args : String)
    (st : ToolExecutionsStore) (id : String) :
    (registerToolCall ms now cid name args st).executions id
      = if id = cid then
          some (match st.executions cid with
            | some ex =>
              { ex with
                toolName := name, args := args,
                messageId := match ex.messageId with
                  | some m => some m
                  | none => resolveCurrentAssistantMessageId ms }
            | none =>
              { toolCallId := cid, toolName := name, args := args,
                status := .called, partialResult := none, result := none,
                isError := none, startTime := now, endTime := none,
                messageId := resolveCurrentAssistantMessageId ms })
        else st.executions id := by
  cases hex : st.executions cid <;> simp [registerToolCall, hex, setExec]

/-- Lookup characterization of `startToolExecution`. -/
lemma start_lookup (ms : MessagesState) (now : Nat) (cid name args : String)
    (st : ToolExecutionsStore) (id : String) :
    (startToolExecution ms now cid name args st).executions id
      = if id = cid then
          some { toolCallId := cid, toolName := name, args := args,
                 status := .running,
                 startTime := match st.executions cid with
                   | some ex => ex.startTime
                   | none => now,
                 messageId := match st.executions cid with
                   | some ex =>
                     (match ex.messageId with
                      | some m => some m
                      | none => resolveCurrentAssistantMessageId ms)
                   | none => resolveCurrentAssistantMessageId ms,
                 partialResult := (st.executions cid).bind (·.partialResult),
                 result := (st.executions cid).bind (·.result),
                 isError := (st.executions cid).bind (·.isError),
                 endTime := (st.executions cid).bind (·.endTime) }
        else st.executions id := rfl

/-- Lookup characterization of `updateToolExecution`. -/
lemma update_lookup (cid p : String) (st : ToolExecutionsStore) (id : String) :
    (updateToolExecution cid p st).executions id
      = match st.executions cid with
        | none => st.executions id
        | some ex =>
          if id = cid then some { ex with partialResult := some p }
          else st.executions id := by
  cases hex : st.executions cid <;> simp [updateToolExecution, hex, setExec]

/-- Lookup characterization of `finishToolExecution`. -/
lemma finish_lookup (now : Nat) (cid r : String) (b : Bool)
    (st : ToolExecutionsStore) (id : String) :
    (finishToolExecution now cid r b st).executions id
      = match st.executions cid with
        | none => st.executions id
        | some ex =>
          if id = cid then
            some { ex with
                   status := if b then .error else .completed,
                   result := some r, isError := some b, endTime := some now }
          else st.executions id := by
  cases hex : st.executions cid <;> simp [finishToolExecution, hex, setExec]

/-- Every terminal record in a store carries an end timestamp. -/
def toolEndTimeInv (st : ToolExecutionsStore) : Prop :=
  ∀ id e, st.executions id = some e →
    (e.status = ToolStatus.completed ∨ e.status = ToolStatus.error) →
    e.endTime ≠ none

/-- Each store operation preserves the end-timestamp invariant. -/
lemma toolEndTimeInv_step (st : ToolExecutionsStore) (h : toolEndTimeInv st)
    (o : ToolOp) : toolEndTimeInv (applyToolOp st o) := by
  intro id e he hterm
  cases o with
  | register ms now cid name args =>
    rw [applyToolOp, register_lookup] at he
    by_cases hid : id = cid
    · rw [if_pos hid] at he
      cases hex : st.executions cid with
      | none =>
        rw [hex] at he
        cases he
        rcases hterm with h1 | h1 <;> exact absurd h1 (by simp)
      | some ex =>
        rw [hex] at he
        cases he
        exact h cid ex hex (by simpa using hterm)
    · rw [if_neg hid] at he
      exact h id e he hterm
  | start ms now cid name args =>
    rw [applyToolOp, start_lookup] at he
    by_cases hid : id = cid
    · rw [if_pos hid] at he
      cases he
      rcases hterm with h1 | h1 <;> exact absurd h1 (by simp)
    · rw [if_neg hid] at he
      exact h id e he hterm
  | update cid p =>
    rw [applyToolOp, update_lookup] at he
    cases hex : st.executions cid with
    | none =>
      simp only [hex] at he
      exact h id e he hterm
    | some ex =>
      simp only [hex] at he
      by_cases hid : id = cid
      · rw [if_pos hid] at he
        cases he
        exact h cid ex hex (by simpa using hterm)
      · rw [if_neg hid] at he
        exact h id e he hterm
  | finish now cid r b =>
    rw [applyToolOp, finish_lookup] at he
    cases hex : st.executions cid with
    | none =>
      simp only [hex] at he
      exact h id e he hterm
    | some ex =>
      simp only [hex] at he
      by_cases hid : id = cid
      · rw [if_pos hid] at he
        cases he
        simp
      · rw [if_neg hid] at he
        exact h id e he hterm

/-- The end-timestamp invariant holds in every reachable store. -/
lemma toolEndTimeInv_run (ops : List ToolOp) :
    ∀ st, toolEndTimeInv st → toolEndTimeInv (applyToolOps st ops) := by
  induction ops with
  | nil => intro st h; exact h
  | cons o ops ih =>
    intro st h
    exact ih (applyToolOp st o) (toolEndTimeInv_step st h o)

/-- C3 (amended): a record's status is changed only by `startToolExecution`
(which sets it to `running`, even on a terminal record) or by
`finishToolExecution` (which sets it to `completed`/`error` per its
`isError` flag, even a second time); `registerToolCall` and
`updateToolExecution` never change a status.  Hence, as long as no start or
finish follows a finish on the same call id, the status only moves forward
through called → running → completed|error.  Unconditionally, in every store
reachable from the initial state, a terminal record carries an end
timestamp. -/
theorem tool_status_evolution :
    (∀ (st : ToolExecutionsStore) (o : ToolOp) (id : String)
        (e e' : ToolExecution),
      st.executions id = some e →
      (applyToolOp st o).executions id = some e' →
      e'.status ≠ e.status →
      (∃ ms now name args, o = ToolOp.start ms now id name args ∧
        e'.status = ToolStatus.running) ∨
      (∃ now r b, o = ToolOp.finish now id r b ∧
        e'.status = (if b then ToolStatus.error else ToolStatus.completed))) ∧
    (∀ (ops : List ToolOp) (id : String) (e : ToolExecution),
      (applyToolOps initialToolStore ops).executions id = some e →
      (e.status = ToolStatus.completed ∨ e.status = ToolStatus.error) →
      e.endTime ≠ none) := by
  constructor
  · intro st o id e e' he he' hne
    cases o with
    | register ms now cid name args =>
      rw [applyToolOp, register_lookup] at he'
      by_cases hid : id = cid
      · subst hid
        rw [if_pos rfl, he] at he'
        simp only at he'
        cases he'
        exact absurd rfl hne
      · rw [if_neg hid, he] at he'
        cases he'
        exact absurd rfl hne
    | start ms now cid name args =>
      rw [applyToolOp, start_lookup] at he'
      by_cases hid : id = cid
      · subst hid
        rw [if_pos rfl] at he'
        cases he'
        exact Or.inl ⟨ms, now, name, args, rfl, rfl⟩
      · rw [if_neg hid, he] at he'
        cases he'
        exact absurd rfl hne
    | update cid p =>
      rw [applyToolOp, update_lookup] at he'
      cases hex : st.executions cid with
      | none =>
        simp only [hex, he] at he'
        cases he'
        exact absurd rfl hne
      | some ex =>
        simp only [hex] at he'
        by_cases hid : id = cid
        · subst hid
          rw [if_pos rfl] at he'
          rw [he] at hex
          cases hex
          cases he'
          exact absurd rfl hne
        · rw [if_neg hid, he] at he'
          cases he'
          exact absurd rfl hne
    | finish now cid r b =>
      rw [applyToolOp, finish_lookup] at he'
      cases hex : st.executions cid with
      | none =>
        simp only [hex, he] at he'
        cases he'
        exact absurd rfl hne
      | some ex =>
        simp only [hex] at he'
        by_cases hid : id = cid
        · subst hid
          rw [if_pos rfl] at he'
          cases he'
          exact Or.inr ⟨now, r, b, rfl, rfl⟩
        · rw [if_neg hid, he] at he'
          cases he'
          exact absurd rfl hne
  · intro ops id e he hterm
    exact toolEndTimeInv_run ops initialToolStore
      (fun _ _ h _ => by simp [initialToolStore] at h) id e he hterm

/-- The record created by registering call `c` of tool `t` with arguments
`a` at time 0 while no message exists. -/
def eCalled : ToolExecution :=
  { toolCallId := "c", toolName := "t", args := "a", status := .called,
    partialResult := none, result := none, isError := none,
    startTime := 0, endTime := none, messageId := none }

/-- `eCalled` after `finishToolExecution` at time 1 with `isError = false`. -/
def eDone : ToolExecution :=
  { eCalled with
    status := .completed, result := some "r",
    isError := some false, endTime := some 1 }

/-- Counterexample to C3 as stated: register a call, finish it (status
`completed`, terminal), then a late `startToolExecution` on the same call id
moves the status back to `running` — a terminal status changed again. -/
theorem tool_status_counterexample :
    ((finishToolExecution 1 "c" "r" false
        (registerToolCall ms0 0 "c" "t" "a" initialToolStore)).executions
      "c").map ToolExecution.status = some ToolStatus.completed ∧
    ((startToolExecution ms0 2 "c" "t" "a"
        (finishToolExecution 1 "c" "r" false
          (registerToolCall ms0 0 "c" "t" "a" initialToolStore))).executions
      "c").map ToolExecution.status = some ToolStatus.running := ⟨rfl, rfl⟩

/-- Witness for C3 (amended), instantiated at a finish operation on a
registered call and at the two-operation run register-then-finish. -/
theorem tool_status_evolution_w :
    ((∃ ms now name args,
        ToolOp.finish 1 "c" "r" false = ToolOp.start ms now "c" name args ∧
        eDone.status = ToolStatus.running) ∨
      (∃ now r b, ToolOp.finish 1 "c" "r" false = ToolOp.finish now "c" r b ∧
        eDone.status = (if b then ToolStatus.error else ToolStatus.completed))) ∧
    eDone.endTime ≠ none :=
  ⟨tool_status_evolution.1 (registerToolCall ms0 0 "c" "t" "a" initialToolStore)
      (ToolOp.finish 1 "c" "r" false) "c" eCalled eDone rfl rfl (by decide),
   tool_status_evolution.2
      [ToolOp.register ms0 0 "c" "t" "a", ToolOp.finish 1 "c" "r" false]
      "c" eDone rfl (by decide)⟩

/-- C4 (amended): the owning messageId stored for a call, once non-null, is
never changed by any subsequent operation; but a messageId stored as null
may be replaced by the resolution (currently-streaming assistant message,
else most recent assistant message, else null) taken at a *later*
`registerToolCall` or `startToolExecution` on the same call id. -/
theorem tool_messageId_binding :
    ∀ (st : ToolExecutionsStore) (o : ToolOp) (id : String)
      (e e' : ToolExecution),
      st.executions id = some e →
      (applyToolOp st o).executions id = some e' →
      (∀ m, e.messageId = some m → e'.messageId = some m) ∧
      (e.messageId = none →
        e'.messageId = none ∨
        ∃ ms now name args,
          (o = ToolOp.register ms now id name args ∨
           o = ToolOp.start ms now id name args) ∧
          e'.messageId = resolveCurrentAssistantMessageId ms) := by
  intro st o id e e' he he'
  cases o with
  | register ms now cid name args =>
    rw [applyToolOp, register_lookup] at he'
    by_cases hid : id = cid
    · subst hid
      rw [if_pos rfl, he] at he'
      simp only at he'
      cases he'
      constructor
      · intro m hm
        simp [hm]
      · intro h0
        refine Or.inr ⟨ms, now, name, args, Or.inl rfl, ?_⟩
        simp [h0]
    · rw [if_neg hid, he] at he'
      cases he'
      exact ⟨fun m hm => hm, fun h0 => Or.inl h0⟩
  | start ms now cid name args =>
    rw [applyToolOp, start_lookup] at he'
    by_cases hid : id = cid
    · subst hid
      rw [if_pos rfl] at he'
      simp only [he] at he'
      cases he'
      constructor
      · intro m hm
        simp [hm]
      · intro h0
        refine Or.inr ⟨ms, now, name, args, Or.inr rfl, ?_⟩
        simp [h0]
    · rw [if_neg hid, he] at he'
      cases he'
      exact ⟨fun m hm => hm, fun h0 => Or.inl h0⟩
  | update cid p =>
    rw [applyToolOp, update_lookup] at he'
    cases hex : st.executions cid with
    | none =>
      simp only [hex, he] at he'
      cases he'
      exact ⟨fun m hm => hm, fun h0 => Or.inl h0⟩
    | some ex =>
      simp only [hex] at he'
      by_cases hid : id = cid
      · subst hid
        rw [if_pos rfl] at he'
        rw [he] at hex
        cases hex
        cases he'
        exact ⟨fun m hm => hm, fun h0 => Or.inl h0⟩
      · rw [if_neg hid, he] at he'
        cases he'
        exact ⟨fun m hm => hm, fun h0 => Or.inl h0⟩
  | finish now cid r b =>
    rw [applyToolOp, finish_lookup] at he'
    cases hex : st.executions cid with
    | none =>
      simp only [hex, he] at he'
      cases he'
      exact ⟨fun m hm => hm, fun h0 => Or.inl h0⟩
    | some ex =>
      simp only [hex] at he'
      by_cases hid : id = cid
      · subst hid
        rw [if_pos rfl] at he'
        rw [he] at hex
        cases hex
        cases he'
        exact ⟨fun m hm => hm, fun h0 => Or.inl h0⟩
      · rw [if_neg hid, he] at he'
        cases he'
        exact ⟨fun m hm => hm, fun h0 => Or.inl h0⟩

/-- Counterexample to C4 as stated: a call registered while no assistant
message exists stores `messageId = null`; re-registering the same call id
after an assistant message `m1` has appeared changes the stored messageId
to `m1`. -/
theorem tool_messageId_counterexample :
    ((registerToolCall ms0 0 "c" "t" "a" initialToolStore).executions
      "c").map ToolExecution.messageId = some none ∧
    ((registerToolCall msA 1 "c" "t" "a"
        (registerToolCall ms0 0 "c" "t" "a" initialToolStore)).executions
      "c").map ToolExecution.messageId = some (some "m1") := ⟨rfl, rfl⟩

/-- The record of call `c` after registering it while assistant message
`m1` is the most recent message. -/
def eBound : ToolExecution :=
  { toolCallId := "c", toolName := "t", args := "a", status := .called,
    partialResult := none, result := none, isError := none,
    startTime := 0, endTime := none, messageId := some "m1" }

/-- `eBound` after a partial-result update. -/
def eBoundUpd : ToolExecution :=
  { eBound with partialResult := some "p" }

/-- Witness for C4 (amended): an update on a call bound to `m1` keeps the
binding. -/
theorem tool_messageId_binding_w :
    (∀ m, eBound.messageId = some m → eBoundUpd.messageId = some m) ∧
    (eBound.messageId = none →
      eBoundUpd.messageId = none ∨
      ∃ ms now name args,
        (ToolOp.update "c" "p" = ToolOp.register ms now "c" name args ∨
         ToolOp.update "c" "p" = ToolOp.start ms now "c" name args) ∧
        eBoundUpd.messageId = resolveCurrentAssistantMessageId ms) :=
  tool_messageId_binding (registerToolCall msA 0 "c" "t" "a" initialToolStore)
    (ToolOp.update "c" "p") "c" eBound eBoundUpd rfl rfl
